import Mathlib

/-!
Verification of the chemosynthetic ocean-world ecosystem simulation
(prototype2.py and prototype3.py).  Python floats are modelled as
rationals, Python ints as integers, and the global random module as an
explicit stream of draws consumed in program order.  Raising Python
code is modelled with Except.
-/

/-- Model of the global random source: nat gives the stream of discrete
draws (randint, choice), real gives the stream of continuous draws
(random.uniform), each indexed by how many draws of that kind have been
consumed so far. -/
structure RandSource where
  nat : Nat → Nat
  real : Nat → ℚ

/-- ChemicalCompound record, prototype3.py lines 7-10 (identical in
prototype2.py lines 6-9). -/
structure ChemicalCompound where
  name : String
  energy : ℚ
deriving Repr, DecidableEq, Inhabited

/-- GeologicalFeature record, prototype3.py lines 12-17 (identical in
prototype2.py lines 11-16). -/
structure GeologicalFeature where
  name : String
  compounds : List ChemicalCompound
  x : ℤ
  y : ℤ
deriving Repr, DecidableEq, Inhabited

/-- Organism record, prototype3.py lines 19-25 (identical in
prototype2.py lines 18-24). -/
structure Organism where
  name : String
  energy : ℚ
  size : ℚ
  x : ℤ
  y : ℤ
deriving Repr, DecidableEq, Inhabited

/-- Organism.metabolize, prototype3.py lines 27-32 (identical in
prototype2.py lines 26-31): returns the energy gained together with the
updated organism (the Python method mutates self.energy and returns
energy_gained). -/
def Organism.metabolize (o : Organism) (compound : ChemicalCompound)
    (temperature pressure : ℚ) : ℚ × Organism :=
  let energy_gained := compound.energy * o.size
  let efficiency := 1 - (|temperature - 10| / 20) - (|pressure - 200| / 400)
  let energy_gained := energy_gained * max 0 efficiency
  (energy_gained, { o with energy := o.energy + energy_gained })

/-- Organism.move, prototype3.py lines 34-36 (identical in prototype2.py
lines 33-35).  Python mod on a positive modulus agrees with Int.emod. -/
def Organism.move (o : Organism) (dx dy max_x max_y : ℤ) : Organism :=
  { o with x := (o.x + dx) % max_x, y := (o.y + dy) % max_y }

/-- C1: for metabolize with nonnegative compound energy yield and
nonnegative organism size, the returned energy gain is nonnegative, the
organism energy rises by exactly that gain, and at temperature 10 and
pressure 200 the gain is exactly compound.energy * size. -/
theorem C1_metabolize_nonneg_exact (o : Organism) (c : ChemicalCompound)
    (t p : ℚ) (hc : 0 ≤ c.energy) (hs : 0 ≤ o.size) :
    0 ≤ (o.metabolize c t p).1 ∧
    ((o.metabolize c t p).2).energy = o.energy + (o.metabolize c t p).1 ∧
    (t = 10 → p = 200 → (o.metabolize c t p).1 = c.energy * o.size) := by
  refine ⟨?_, rfl, ?_⟩
  · exact mul_nonneg (mul_nonneg hc hs) (le_max_left 0 _)
  · intro ht hp
    subst ht hp
    simp [Organism.metabolize]

/-- Witness for C1 at a concrete compound and organism. -/
theorem C1_metabolize_nonneg_exact_witness :
    0 ≤ (ChemicalCompound.mk "Methane" (7/10)).energy ∧
    0 ≤ (Organism.mk "Yeti Crab" 3 (1/20) 2 2).size ∧
    (0 ≤ ((Organism.mk "Yeti Crab" 3 (1/20) 2 2).metabolize
        (ChemicalCompound.mk "Methane" (7/10)) 10 200).1 ∧
      (((Organism.mk "Yeti Crab" 3 (1/20) 2 2).metabolize
        (ChemicalCompound.mk "Methane" (7/10)) 10 200).2).energy =
        (Organism.mk "Yeti Crab" 3 (1/20) 2 2).energy +
        ((Organism.mk "Yeti Crab" 3 (1/20) 2 2).metabolize
        (ChemicalCompound.mk "Methane" (7/10)) 10 200).1 ∧
      ((10 : ℚ) = 10 → (200 : ℚ) = 200 →
        ((Organism.mk "Yeti Crab" 3 (1/20) 2 2).metabolize
        (ChemicalCompound.mk "Methane" (7/10)) 10 200).1 =
        (ChemicalCompound.mk "Methane" (7/10)).energy *
        (Organism.mk "Yeti Crab" 3 (1/20) 2 2).size)) :=
  ⟨by norm_num, by norm_num,
    C1_metabolize_nonneg_exact _ _ 10 200 (by norm_num) (by norm_num)⟩

/-- C2: after a move with deltas in the set of -1, 0, 1 from an
in-bounds position on a grid with positive width and height, the new
position is again in bounds (toroidal wraparound never leaves the
grid). -/
theorem C2_move_in_bounds (o : Organism) (dx dy w h : ℤ)
    (hw : 0 < w) (hh : 0 < h)
    (hdx : dx = -1 ∨ dx = 0 ∨ dx = 1) (hdy : dy = -1 ∨ dy = 0 ∨ dy = 1)
    (hx : 0 ≤ o.x ∧ o.x < w) (hy : 0 ≤ o.y ∧ o.y < h) :
    (0 ≤ (o.move dx dy w h).x ∧ (o.move dx dy w h).x < w) ∧
    (0 ≤ (o.move dx dy w h).y ∧ (o.move dx dy w h).y < h) := by
  refine ⟨⟨Int.emod_nonneg _ (ne_of_gt hw), Int.emod_lt_of_pos _ hw⟩,
    ⟨Int.emod_nonneg _ (ne_of_gt hh), Int.emod_lt_of_pos _ hh⟩⟩

/-- Witness for C2 on a concrete organism and grid. -/
theorem C2_move_in_bounds_witness :
    (0 ≤ ((Organism.mk "Giant Tubeworm" 5 (1/10) 0 4).move (-1) 1 5 5).x ∧
      ((Organism.mk "Giant Tubeworm" 5 (1/10) 0 4).move (-1) 1 5 5).x < 5) ∧
    (0 ≤ ((Organism.mk "Giant Tubeworm" 5 (1/10) 0 4).move (-1) 1 5 5).y ∧
      ((Organism.mk "Giant Tubeworm" 5 (1/10) 0 4).move (-1) 1 5 5).y < 5) :=
  C2_move_in_bounds _ (-1) 1 5 5 (by decide) (by decide)
    (Or.inl rfl) (Or.inr (Or.inr rfl)) (by decide) (by decide)

/-- Squared Euclidean distance between a feature and an organism.  The
Python key in get_nearby_feature is the square root of this value; the
square root is strictly monotone on nonnegative reals, so minimising and
tie-breaking over this key agree with the source key. -/
def featKey (o : Organism) (f : GeologicalFeature) : ℤ :=
  (f.x - o.x) ^ 2 + (f.y - o.y) ^ 2

/-- One comparison step of the Python min builtin with a key function:
the current best is replaced only when the new key is strictly
smaller, so ties keep the earlier element. -/
def nearStep (o : Organism) (best f2 : GeologicalFeature) : GeologicalFeature :=
  if featKey o f2 < featKey o best then f2 else best

/-- Ecosystem.get_nearby_feature, prototype3.py lines 52-53 (identical in
prototype2.py lines 51-52): min over the feature list by Euclidean
distance to the organism.  Python min raises ValueError on an empty
sequence, modelled as none. -/
def get_nearby_feature (features : List GeologicalFeature) (o : Organism) :
    Option GeologicalFeature :=
  match features with
  | [] => none
  | f :: fs => some (fs.foldl (nearStep o) f)

theorem nearStep_eq_or (o : Organism) (b f2 : GeologicalFeature) :
    nearStep o b f2 = b ∨ nearStep o b f2 = f2 := by
  unfold nearStep
  split
  · exact Or.inr rfl
  · exact Or.inl rfl

theorem featKey_nearStep_le_left (o : Organism) (b f2 : GeologicalFeature) :
    featKey o (nearStep o b f2) ≤ featKey o b := by
  unfold nearStep
  split
  · exact le_of_lt (by assumption)
  · exact le_refl _

theorem featKey_nearStep_le_right (o : Organism) (b f2 : GeologicalFeature) :
    featKey o (nearStep o b f2) ≤ featKey o f2 := by
  unfold nearStep
  split
  · exact le_refl _
  · exact le_of_not_lt (by assumption)

theorem nearFold_mem (o : Organism) :
    ∀ (fs : List GeologicalFeature) (f : GeologicalFeature),
      fs.foldl (nearStep o) f ∈ f :: fs := by
  intro fs
  induction fs with
  | nil => intro f; simp
  | cons a fs ih =>
    intro f
    rw [List.foldl_cons]
    have h := ih (nearStep o f a)
    rcases List.mem_cons.mp h with h1 | h1
    · rw [h1]
      rcases nearStep_eq_or o f a with h2 | h2 <;> rw [h2] <;> simp
    · exact List.mem_cons.mpr (Or.inr (List.mem_cons.mpr (Or.inr h1)))

theorem nearFold_le (o : Organism) :
    ∀ (fs : List GeologicalFeature) (f : GeologicalFeature),
      ∀ x ∈ f :: fs, featKey o (fs.foldl (nearStep o) f) ≤ featKey o x := by
  intro fs
  induction fs with
  | nil =>
    intro f x hx
    rcases List.mem_cons.mp hx with h | h
    · rw [h]; simp
    · simp at h
  | cons a fs ih =>
    intro f x hx
    rw [List.foldl_cons]
    have hstep : featKey o (fs.foldl (nearStep o) (nearStep o f a)) ≤
        featKey o (nearStep o f a) :=
      ih (nearStep o f a) _ (List.mem_cons_self _ _)
    rcases List.mem_cons.mp hx with h | h
    · rw [h]
      exact le_trans hstep (featKey_nearStep_le_left o f a)
    · rcases List.mem_cons.mp h with h1 | h1
      · rw [h1]
        exact le_trans hstep (featKey_nearStep_le_right o f a)
      · exact ih (nearStep o f a) x (List.mem_cons.mpr (Or.inr h1))

theorem nearFold_first (o : Organism) :
    ∀ (fs : List GeologicalFeature) (f : GeologicalFeature),
      ∃ l1 l2, f :: fs = l1 ++ (fs.foldl (nearStep o) f) :: l2 ∧
        ∀ x ∈ l1, featKey o (fs.foldl (nearStep o) f) < featKey o x := by
  intro fs
  induction fs with
  | nil =>
    intro f
    exact ⟨[], [], rfl, by simp⟩
  | cons a fs ih =>
    intro f
    rw [List.foldl_cons]
    by_cases hca : featKey o a < featKey o f
    · have hstep : nearStep o f a = a := by simp [nearStep, hca]
      rw [hstep]
      obtain ⟨l1, l2, hdec, hlt⟩ := ih a
      refine ⟨f :: l1, l2, ?_, ?_⟩
      · rw [List.cons_append, ← hdec]
      · intro x hx
        rcases List.mem_cons.mp hx with h | h
        · have h1 : featKey o (fs.foldl (nearStep o) a) ≤ featKey o a :=
            nearFold_le o fs a a (List.mem_cons_self _ _)
          rw [h]
          exact lt_of_le_of_lt h1 hca
        · exact hlt x h
    · have hstep : nearStep o f a = f := by simp [nearStep, hca]
      rw [hstep]
      obtain ⟨l1, l2, hdec, hlt⟩ := ih f
      cases l1 with
      | nil =>
        rw [List.nil_append, List.cons_eq_cons] at hdec
        have h1 := hdec.1
        exact ⟨[], a :: fs, by rw [List.nil_append, ← h1], by simp⟩
      | cons b l1 =>
        rw [List.cons_append, List.cons_eq_cons] at hdec
        obtain ⟨hb, htail⟩ := hdec
        refine ⟨f :: a :: l1, l2, ?_, ?_⟩
        · rw [List.cons_append, List.cons_append, ← htail]
        · intro x hx
          rcases List.mem_cons.mp hx with h | h
          · rw [h]
            have hbf := hlt b (List.mem_cons_self b l1)
            rw [← hb] at hbf
            exact hbf
          · rcases List.mem_cons.mp h with h1 | h1
            · rw [h1]
              have hbf : featKey o (fs.foldl (nearStep o) f) < featKey o b :=
                hlt b (List.mem_cons_self _ _)
              rw [← hb] at hbf
              exact lt_of_lt_of_le hbf (le_of_not_lt hca)
            · exact hlt x (List.mem_cons.mpr (Or.inr h1))

theorem featKey_nonneg (o : Organism) (f : GeologicalFeature) :
    (0 : ℝ) ≤ (featKey o f : ℝ) := by
  have : (0 : ℤ) ≤ featKey o f := by
    unfold featKey
    positivity
  exact_mod_cast this

/-- C4: on a non-empty feature list, get_nearby_feature returns a
feature of the list whose Euclidean distance to the organism is minimal,
every feature listed before it is strictly farther (ties go to the
first), and the result depends only on the positions: any organism at
the same coordinates gets the same feature. -/
theorem C4_get_nearby_feature_min (features : List GeologicalFeature)
    (o o2 : Organism) (hne : features ≠ [])
    (hx : o2.x = o.x) (hy : o2.y = o.y) :
    ∃ r, get_nearby_feature features o = some r ∧
      r ∈ features ∧
      (∀ f ∈ features,
        Real.sqrt ((featKey o r : ℝ)) ≤ Real.sqrt ((featKey o f : ℝ))) ∧
      (∃ l1 l2, features = l1 ++ r :: l2 ∧
        ∀ f ∈ l1,
          Real.sqrt ((featKey o r : ℝ)) < Real.sqrt ((featKey o f : ℝ))) ∧
      get_nearby_feature features o2 = some r := by
  have hkey : featKey o2 = featKey o := by
    funext f
    simp [featKey, hx, hy]
  match features with
  | [] => exact absurd rfl hne
  | f :: fs =>
    refine ⟨fs.foldl (nearStep o) f, rfl, nearFold_mem o fs f, ?_, ?_, ?_⟩
    · intro g hg
      exact Real.sqrt_le_sqrt
        (by exact_mod_cast nearFold_le o fs f g hg)
    · rcases nearFold_first o fs f with ⟨l1, l2, hdec, hlt⟩
      refine ⟨l1, l2, hdec, ?_⟩
      intro g hg
      exact Real.sqrt_lt_sqrt (featKey_nonneg o _)
        (by exact_mod_cast hlt g hg)
    · have hstep : nearStep o2 = nearStep o := by
        funext b f2
        simp [nearStep, hkey]
      simp [get_nearby_feature, hstep]

/-- Witness for C4 at a concrete feature list and organism. -/
theorem C4_get_nearby_feature_min_witness :
    ∃ r, get_nearby_feature
        [GeologicalFeature.mk "Hydrothermal Vent" [] 4 4,
         GeologicalFeature.mk "Methane Seep" [] 1 1]
        (Organism.mk "Sulfur-oxidizing Microbe" 1 (1/100) 0 0) = some r ∧
      r ∈ [GeologicalFeature.mk "Hydrothermal Vent" [] 4 4,
         GeologicalFeature.mk "Methane Seep" [] 1 1] ∧
      (∀ f ∈ [GeologicalFeature.mk "Hydrothermal Vent" [] 4 4,
         GeologicalFeature.mk "Methane Seep" [] 1 1],
        Real.sqrt ((featKey (Organism.mk "Sulfur-oxidizing Microbe" 1 (1/100) 0 0) r : ℝ)) ≤
        Real.sqrt ((featKey (Organism.mk "Sulfur-oxidizing Microbe" 1 (1/100) 0 0) f : ℝ))) ∧
      (∃ l1 l2, [GeologicalFeature.mk "Hydrothermal Vent" [] 4 4,
         GeologicalFeature.mk "Methane Seep" [] 1 1] = l1 ++ r :: l2 ∧
        ∀ f ∈ l1,
          Real.sqrt ((featKey (Organism.mk "Sulfur-oxidizing Microbe" 1 (1/100) 0 0) r : ℝ)) <
          Real.sqrt ((featKey (Organism.mk "Sulfur-oxidizing Microbe" 1 (1/100) 0 0) f : ℝ))) ∧
      get_nearby_feature
        [GeologicalFeature.mk "Hydrothermal Vent" [] 4 4,
         GeologicalFeature.mk "Methane Seep" [] 1 1]
        (Organism.mk "Giant Tubeworm" 5 (1/10) 0 0) = some r :=
  C4_get_nearby_feature_min _ _ _ (by decide) rfl rfl

/-- Event data emitted by a cycle: one forage record per organism (the
print on prototype3.py line 66) and one predation record per triggered
transfer (the print on prototype3.py line 73). -/
inductive SimEvent where
  | forage (orgName : String) (x y : ℤ) (gained : ℚ)
      (compoundName featureName : String)
  | preyed (predName preyName : String)
deriving Repr, DecidableEq, Inhabited

/-- Ecosystem state, prototype3.py lines 38-44 (identical class in
prototype2.py lines 37-43).  The Python size tuple is split into width
(size[0]) and height (size[1]). -/
structure Ecosystem where
  features : List GeologicalFeature
  organisms : List Organism
  width : ℤ
  height : ℤ
  temperature_map : List (List ℚ)
  pressure_map : List (List ℚ)
deriving Repr, DecidableEq, Inhabited

/-- Grid lookup map[x][y] as used on prototype3.py lines 62-63.  In every
reachable state the indices are in range; out-of-range reads return a
default instead of the Python IndexError. -/
def mapAt (m : List (List ℚ)) (x y : ℤ) : ℚ :=
  (m.getD x.toNat []).getD y.toNat 0

/-- Draw of random.randint(-1, 1): one discrete draw mapped onto the
three values -1, 0, 1. -/
def randDelta (g : RandSource) (k : ℕ) : ℤ :=
  ((g.nat k % 3 : ℕ) : ℤ) - 1

/-- Draw of random.uniform a b: a + (b - a) * u where u is the
continuous draw in the unit interval. -/
def randUniform (a b u : ℚ) : ℚ :=
  a + (b - a) * u

/-- Indices of the organisms of the prey species, the live filter on
prototype3.py line 69: random.choice picks uniformly among these. -/
def preyIndices (orgs : List Organism) : List ℕ :=
  (List.range orgs.length).filter
    (fun j => (orgs.getD j default).name = "Giant Tubeworm")

/-- Predation block, prototype3.py lines 68-73 (identical in
prototype2.py lines 70-75), acting on the organism at index i of the
live list.  random.choice on an empty prey list raises IndexError,
modelled as an error result; the prey energy added to the predator is
read before the prey is halved, as in the source. -/
def predation_step (orgs : List Organism) (i : ℕ) (g : RandSource) (k : ℕ) :
    Except String (List Organism × ℕ × List SimEvent) :=
  let o := orgs.getD i default
  if o.name = "Yeti Crab" ∧ o.energy > 10 then
    let preys := preyIndices orgs
    if preys.length = 0 then
      Except.error "IndexError: cannot choose from an empty sequence"
    else
      let j := preys.getD (g.nat k % preys.length) 0
      let prey := orgs.getD j default
      if (prey.x - o.x) ^ 2 + (prey.y - o.y) ^ 2 < 4 then
        Except.ok
          ((orgs.set i { o with energy := o.energy + prey.energy / 2 }).set j
              { prey with energy := prey.energy / 2 },
            k + 1, [SimEvent.preyed o.name prey.name])
      else Except.ok (orgs, k + 1, [])
  else Except.ok (orgs, k, [])

namespace P3

/-- Loop body of Ecosystem.simulate_cycle, prototype3.py lines 56-73,
for the organism at index i: move with two randint draws, nearest
feature, one choice draw for the compound, environment sampling,
metabolism, forage event, then the conditional predation block.
Python mutates the organism object in place, so the list is updated
before the feature lookup, exactly as the source reads it. -/
def processOrganism (st : Ecosystem) (orgs : List Organism) (g : RandSource)
    (k i : ℕ) : Except String (List Organism × ℕ × List SimEvent) :=
  let o := orgs.getD i default
  let dx := randDelta g k
  let dy := randDelta g (k + 1)
  let o := o.move dx dy st.width st.height
  let orgs := orgs.set i o
  match get_nearby_feature st.features o with
  | none => Except.error "ValueError: min arg is an empty sequence"
  | some feature =>
    if feature.compounds.length = 0 then
      Except.error "IndexError: cannot choose from an empty sequence"
    else
      let compound :=
        feature.compounds.getD (g.nat (k + 2) % feature.compounds.length) default
      let temperature := mapAt st.temperature_map o.x o.y
      let pressure := mapAt st.pressure_map o.x o.y
      let r := o.metabolize compound temperature pressure
      let o2 := r.2
      let orgs := orgs.set i o2
      let ev := SimEvent.forage o2.name o2.x o2.y r.1 compound.name feature.name
      match predation_step orgs i g (k + 3) with
      | Except.error e => Except.error e
      | Except.ok (orgs2, k2, evs) => Except.ok (orgs2, k2, ev :: evs)

/-- Iteration of the for loop of simulate_cycle over organism indices
i, i+1, ... with fuel = number of organisms still to process. -/
def cycleAux (st : Ecosystem) (g : RandSource) :
    ℕ → List Organism → ℕ → ℕ → Except String (List Organism × ℕ × List SimEvent)
  | 0, orgs, k, _ => Except.ok (orgs, k, [])
  | fuel + 1, orgs, k, i =>
    match processOrganism st orgs g k i with
    | Except.error e => Except.error e
    | Except.ok (orgs2, k2, evs) =>
      match cycleAux st g fuel orgs2 k2 (i + 1) with
      | Except.error e => Except.error e
      | Except.ok (orgs3, k3, evs2) => Except.ok (orgs3, k3, evs ++ evs2)

/-- Ecosystem.simulate_cycle, prototype3.py lines 55-73: every organism
processed once in list order; only the organisms field changes. -/
def simulate_cycle (st : Ecosystem) (g : RandSource) (k : ℕ) :
    Except String (Ecosystem × ℕ × List SimEvent) :=
  match cycleAux st g st.organisms.length st.organisms k 0 with
  | Except.error e => Except.error e
  | Except.ok (orgs, k2, evs) =>
    Except.ok ({ st with organisms := orgs }, k2, evs)

/-- Run of N cycles with the shared random source, the caller-chosen
bounded loop of §5 of the spec. -/
def run (g : RandSource) : ℕ → Ecosystem → ℕ → Except String (Ecosystem × ℕ × List SimEvent)
  | 0, st, k => Except.ok (st, k, [])
  | n + 1, st, k =>
    match simulate_cycle st g k with
    | Except.error e => Except.error e
    | Except.ok (st2, k2, evs) =>
      match run g n st2 k2 with
      | Except.error e => Except.error e
      | Except.ok (st3, k3, evs2) => Except.ok (st3, k3, evs ++ evs2)

end P3

/-- Per-species arithmetic mean of energy as computed inside the
energies dictionary of prototype3.py lines 82-86: total energy of the
species divided by its member count.  Python raises ZeroDivisionError
when the species has no members, modelled as an error result. -/
def speciesMeanEnergy (orgs : List Organism) (species : String) :
    Except String ℚ :=
  let members := orgs.filter (fun o => o.name = species)
  if members.length = 0 then
    Except.error "ZeroDivisionError: division by zero"
  else
    Except.ok ((members.map (fun o => o.energy)).sum / (members.length : ℚ))

/-- Return value of prototype3 get_plot_data. -/
structure PlotData where
  x_features : List ℤ
  y_features : List ℤ
  x_organisms : List ℤ
  y_organisms : List ℤ
  colors : List String
  sizes : List ℚ
  energyMicrobe : ℚ
  energyTubeworm : ℚ
  energyCrab : ℚ
deriving Repr, DecidableEq, Inhabited

/-- Return value of prototype2 get_plot_data (no energies). -/
structure PlotDataBasic where
  x_features : List ℤ
  y_features : List ℤ
  x_organisms : List ℤ
  y_organisms : List ℤ
  colors : List String
  sizes : List ℚ
deriving Repr, DecidableEq, Inhabited

namespace P3

/-- Ecosystem.get_plot_data, prototype3.py lines 75-87, as an explicit
state-passing method: the pair holds the returned data and the state of
the ecosystem after the call (the method body contains no assignment to
self, so the post state is the input state).  The three species means
are evaluated in source order, so the first empty species raises. -/
def get_plot_data (st : Ecosystem) : (Except String PlotData) × Ecosystem :=
  let x_features := st.features.map (fun f => f.x)
  let y_features := st.features.map (fun f => f.y)
  let x_organisms := st.organisms.map (fun o => o.x)
  let y_organisms := st.organisms.map (fun o => o.y)
  let colors := st.organisms.map (fun o =>
    if o.name = "Sulfur-oxidizing Microbe" then "r"
    else if o.name = "Giant Tubeworm" then "g" else "b")
  let sizes := st.organisms.map (fun o => o.size * 100)
  let data :=
    match speciesMeanEnergy st.organisms "Sulfur-oxidizing Microbe",
        speciesMeanEnergy st.organisms "Giant Tubeworm",
        speciesMeanEnergy st.organisms "Yeti Crab" with
    | Except.ok m, Except.ok t, Except.ok c =>
      Except.ok (PlotData.mk x_features y_features x_organisms y_organisms
        colors sizes m t c)
    | Except.error e, _, _ => Except.error e
    | _, Except.error e, _ => Except.error e
    | _, _, Except.error e => Except.error e
  (data, st)

end P3

namespace P2

/-- Loop body of Ecosystem.simulate_cycle of prototype2.py lines 55-75,
translated independently from that file; the statements coincide with
prototype3.py lines 56-73. -/
def processOrganism (st : Ecosystem) (orgs : List Organism) (g : RandSource)
    (k i : ℕ) : Except String (List Organism × ℕ × List SimEvent) :=
  let o := orgs.getD i default
  let dx := randDelta g k
  let dy := randDelta g (k + 1)
  let o := o.move dx dy st.width st.height
  let orgs := orgs.set i o
  match get_nearby_feature st.features o with
  | none => Except.error "ValueError: min arg is an empty sequence"
  | some feature =>
    if feature.compounds.length = 0 then
      Except.error "IndexError: cannot choose from an empty sequence"
    else
      let compound :=
        feature.compounds.getD (g.nat (k + 2) % feature.compounds.length) default
      let temperature := mapAt st.temperature_map o.x o.y
      let pressure := mapAt st.pressure_map o.x o.y
      let r := o.metabolize compound temperature pressure
      let o2 := r.2
      let orgs := orgs.set i o2
      let ev := SimEvent.forage o2.name o2.x o2.y r.1 compound.name feature.name
      match predation_step orgs i g (k + 3) with
      | Except.error e => Except.error e
      | Except.ok (orgs2, k2, evs) => Except.ok (orgs2, k2, ev :: evs)

/-- Iteration of the prototype2 for loop over organism indices. -/
def cycleAux (st : Ecosystem) (g : RandSource) :
    ℕ → List Organism → ℕ → ℕ → Except String (List Organism × ℕ × List SimEvent)
  | 0, orgs, k, _ => Except.ok (orgs, k, [])
  | fuel + 1, orgs, k, i =>
    match processOrganism st orgs g k i with
    | Except.error e => Except.error e
    | Except.ok (orgs2, k2, evs) =>
      match cycleAux st g fuel orgs2 k2 (i + 1) with
      | Except.error e => Except.error e
      | Except.ok (orgs3, k3, evs2) => Except.ok (orgs3, k3, evs ++ evs2)

/-- Ecosystem.simulate_cycle, prototype2.py lines 54-75. -/
def simulate_cycle (st : Ecosystem) (g : RandSource) (k : ℕ) :
    Except String (Ecosystem × ℕ × List SimEvent) :=
  match cycleAux st g st.organisms.length st.organisms k 0 with
  | Except.error e => Except.error e
  | Except.ok (orgs, k2, evs) =>
    Except.ok ({ st with organisms := orgs }, k2, evs)

/-- Ecosystem.get_plot_data, prototype2.py lines 77-84: pure reads, no
per-species means, no assignment to self. -/
def get_plot_data (st : Ecosystem) : PlotDataBasic × Ecosystem :=
  let x_features := st.features.map (fun f => f.x)
  let y_features := st.features.map (fun f => f.y)
  let x_organisms := st.organisms.map (fun o => o.x)
  let y_organisms := st.organisms.map (fun o => o.y)
  let colors := st.organisms.map (fun o =>
    if o.name = "Sulfur-oxidizing Microbe" then "r"
    else if o.name = "Giant Tubeworm" then "g" else "b")
  let sizes := st.organisms.map (fun o => o.size * 100)
  (PlotDataBasic.mk x_features y_features x_organisms y_organisms colors sizes, st)

end P2

/-- Ecosystem.generate_temperature_map, prototype3.py lines 46-47
(identical in prototype2.py lines 45-46): one uniform draw in [5, 15]
per cell, rows built for x = 0..w-1, cells for y = 0..h-1, consuming the
continuous draws in that order. -/
def generate_temperature_map (w h : ℕ) (g : RandSource) : List (List ℚ) :=
  (List.range w).map (fun x =>
    (List.range h).map (fun y => randUniform 5 15 (g.real (x * h + y))))

/-- Ecosystem.generate_pressure_map, prototype3.py lines 49-50
(identical in prototype2.py lines 48-49): pressure 100 + 10 * y for
every row, independent of x and of randomness. -/
def generate_pressure_map (w h : ℕ) : List (List ℚ) :=
  (List.range w).map (fun _ =>
    (List.range h).map (fun (y : ℕ) => 100 + 10 * (y : ℚ)))

/-- Ecosystem.__init__, prototype3.py lines 39-44 (identical in
prototype2.py lines 38-43): stores features, organisms and size and
generates both environment fields exactly once. -/
def makeEcosystem (features : List GeologicalFeature) (orgs : List Organism)
    (w h : ℤ) (g : RandSource) : Ecosystem :=
  { features := features
    organisms := orgs
    width := w
    height := h
    temperature_map := generate_temperature_map w.toNat h.toNat g
    pressure_map := generate_pressure_map w.toNat h.toNat }

theorem getD_set_self {α : Type} (l : List α) (i : ℕ) (a d : α)
    (h : i < l.length) : (l.set i a).getD i d = a := by
  rw [List.getD_eq_getElem _ _ (by simpa using h)]
  exact List.getElem_set_self _

theorem getD_set_ne {α : Type} (l : List α) (i j : ℕ) (a d : α)
    (hij : i ≠ j) (hj : j < l.length) : (l.set i a).getD j d = l.getD j d := by
  rw [List.getD_eq_getElem _ _ (by simpa using hj), List.getD_eq_getElem _ _ hj]
  exact List.getElem_set_ne hij _

theorem preyIndices_mem (orgs : List Organism) (j : ℕ)
    (h : j ∈ preyIndices orgs) :
    j < orgs.length ∧ (orgs.getD j default).name = "Giant Tubeworm" := by
  unfold preyIndices at h
  rw [List.mem_filter] at h
  exact ⟨List.mem_range.mp h.1, of_decide_eq_true h.2⟩

/-- C3: when the predation block triggers (predator species and energy
threshold hold, a prey exists, and the selected prey is within the
distance bound), the predator energy rises by exactly half the prey
pre-event energy, the prey energy becomes exactly that half, and the sum
of the pair is unchanged. -/
theorem C3_predation_transfer (orgs : List Organism) (i j : ℕ)
    (g : RandSource) (k : ℕ) (hi : i < orgs.length)
    (hname : (orgs.getD i default).name = "Yeti Crab")
    (hen : (orgs.getD i default).energy > 10)
    (hne : preyIndices orgs ≠ [])
    (hj : j = (preyIndices orgs).getD (g.nat k % (preyIndices orgs).length) 0)
    (hdist : ((orgs.getD j default).x - (orgs.getD i default).x) ^ 2 +
        ((orgs.getD j default).y - (orgs.getD i default).y) ^ 2 < 4) :
    ∃ orgs2, predation_step orgs i g k =
        Except.ok (orgs2, k + 1,
          [SimEvent.preyed (orgs.getD i default).name
            (orgs.getD j default).name]) ∧
      (orgs2.getD i default).energy =
        (orgs.getD i default).energy + (orgs.getD j default).energy / 2 ∧
      (orgs2.getD j default).energy = (orgs.getD j default).energy / 2 ∧
      (orgs2.getD i default).energy + (orgs2.getD j default).energy =
        (orgs.getD i default).energy + (orgs.getD j default).energy := by
  have hlen : 0 < (preyIndices orgs).length :=
    List.length_pos.mpr hne
  have hidx : g.nat k % (preyIndices orgs).length < (preyIndices orgs).length :=
    Nat.mod_lt _ hlen
  have hjmem : j ∈ preyIndices orgs := by
    rw [hj, List.getD_eq_getElem _ _ hidx]
    exact List.getElem_mem hidx
  obtain ⟨hjlt, hjname⟩ := preyIndices_mem orgs j hjmem
  have hij : i ≠ j := by
    intro he
    rw [← he, hname] at hjname
    exact absurd hjname (by decide)
  refine ⟨(orgs.set i
      { orgs.getD i default with
        energy := (orgs.getD i default).energy +
          (orgs.getD j default).energy / 2 }).set j
      { orgs.getD j default with
        energy := (orgs.getD j default).energy / 2 }, ?_, ?_, ?_, ?_⟩
  · simp only [predation_step]
    rw [if_pos ⟨hname, hen⟩, if_neg (Nat.pos_iff_ne_zero.mp hlen), ← hj,
      if_pos hdist]
  · rw [getD_set_ne _ j i _ _ (Ne.symm hij) (by simpa using hi),
      getD_set_self _ _ _ _ hi]
  · rw [getD_set_self _ _ _ _ (by simpa using hjlt)]
  · rw [getD_set_ne _ j i _ _ (Ne.symm hij) (by simpa using hi),
      getD_set_self _ _ _ _ hi,
      getD_set_self _ _ _ _ (by simpa using hjlt)]
    ring

/-- Witness for C3 at a concrete predator and prey pair. -/
theorem C3_predation_transfer_witness :
    ∃ orgs2,
      predation_step
          [Organism.mk "Yeti Crab" 12 (1/20) 0 0,
           Organism.mk "Giant Tubeworm" 8 (1/10) 1 1] 0
          (RandSource.mk (fun _ => 0) (fun _ => 0)) 0 =
        Except.ok (orgs2, 0 + 1,
          [SimEvent.preyed
            (([Organism.mk "Yeti Crab" 12 (1/20) 0 0,
               Organism.mk "Giant Tubeworm" 8 (1/10) 1 1].getD 0 default)).name
            (([Organism.mk "Yeti Crab" 12 (1/20) 0 0,
               Organism.mk "Giant Tubeworm" 8 (1/10) 1 1].getD 1 default)).name]) ∧
      (orgs2.getD 0 default).energy =
        (([Organism.mk "Yeti Crab" 12 (1/20) 0 0,
           Organism.mk "Giant Tubeworm" 8 (1/10) 1 1].getD 0 default)).energy +
        (([Organism.mk "Yeti Crab" 12 (1/20) 0 0,
           Organism.mk "Giant Tubeworm" 8 (1/10) 1 1].getD 1 default)).energy / 2 ∧
      (orgs2.getD 1 default).energy =
        (([Organism.mk "Yeti Crab" 12 (1/20) 0 0,
           Organism.mk "Giant Tubeworm" 8 (1/10) 1 1].getD 1 default)).energy / 2 ∧
      (orgs2.getD 0 default).energy + (orgs2.getD 1 default).energy =
        (([Organism.mk "Yeti Crab" 12 (1/20) 0 0,
           Organism.mk "Giant Tubeworm" 8 (1/10) 1 1].getD 0 default)).energy +
        (([Organism.mk "Yeti Crab" 12 (1/20) 0 0,
           Organism.mk "Giant Tubeworm" 8 (1/10) 1 1].getD 1 default)).energy :=
  C3_predation_transfer _ 0 1 _ 0 (by decide) rfl (by norm_num)
    (by decide) (by decide) (by decide)

/-- C5: a cycle in which a Yeti Crab above the energy threshold is
processed while no Giant Tubeworm exists does not complete: the source
calls random.choice on the empty prey list, which raises IndexError.
The concrete state below is such a cycle, and the simulation returns
the modelled IndexError instead of completing without error. -/
theorem C5_cycle_raises_on_empty_prey :
    P3.simulate_cycle
      (Ecosystem.mk
        [GeologicalFeature.mk "Hydrothermal Vent"
          [ChemicalCompound.mk "Hydrogen Sulfide" (1/2)] 0 0]
        [Organism.mk "Yeti Crab" 20 1 0 0] 5 5 [] [])
      (RandSource.mk (fun _ => 0) (fun _ => 0)) 0 =
    Except.error "IndexError: cannot choose from an empty sequence" := by
  have hs : ("Yeti Crab" : String) ≠ "Giant Tubeworm" := by decide
  norm_num [hs, P3.simulate_cycle, P3.cycleAux, P3.processOrganism,
    predation_step, preyIndices, get_nearby_feature, nearStep, featKey, mapAt,
    randDelta, Organism.move, Organism.metabolize]

/-- C6: computing the per-species means in get_plot_data with a species
that has zero current members raises ZeroDivisionError in the source (a
sum divided by a zero count) instead of yielding a no-data result; on
the concrete population below (no Sulfur-oxidizing Microbe) the snapshot
returns the modelled ZeroDivisionError. -/
theorem C6_get_plot_data_division_fault :
    (P3.get_plot_data
      (Ecosystem.mk [] [Organism.mk "Yeti Crab" 3 (1/20) 0 0] 5 5 [] [])).1 =
    Except.error "ZeroDivisionError: division by zero" := by
  rfl

theorem simulate_cycle_fields (st : Ecosystem) (g : RandSource) (k : ℕ)
    (st2 : Ecosystem) (k2 : ℕ) (evs : List SimEvent)
    (h : P3.simulate_cycle st g k = Except.ok (st2, k2, evs)) :
    st2.temperature_map = st.temperature_map ∧
    st2.pressure_map = st.pressure_map := by
  unfold P3.simulate_cycle at h
  cases hc : P3.cycleAux st g st.organisms.length st.organisms k 0 with
  | error e => rw [hc] at h; cases h
  | ok r =>
    rw [hc] at h
    obtain ⟨orgs, k3, evs3⟩ := r
    simp only [Except.ok.injEq, Prod.mk.injEq] at h
    obtain ⟨h1, h2, h3⟩ := h
    rw [← h1]
    exact ⟨rfl, rfl⟩

theorem generate_temperature_map_cell (w h : ℕ) (g : RandSource) (x y : ℕ)
    (hx : x < w) (hy : y < h) :
    ((generate_temperature_map w h g).getD x []).getD y 0 =
      randUniform 5 15 (g.real (x * h + y)) := by
  unfold generate_temperature_map
  have hx1 : x < ((List.range w).map (fun x =>
      (List.range h).map (fun y =>
        randUniform 5 15 (g.real (x * h + y))))).length := by
    simpa using hx
  rw [List.getD_eq_getElem _ _ hx1, List.getElem_map, List.getElem_range]
  have hy1 : y < ((List.range h).map (fun y0 =>
      randUniform 5 15 (g.real (x * h + y0)))).length := by
    simpa using hy
  rw [List.getD_eq_getElem _ _ hy1, List.getElem_map, List.getElem_range]

theorem generate_pressure_map_cell (w h x y : ℕ) (hx : x < w) (hy : y < h) :
    ((generate_pressure_map w h).getD x []).getD y 0 = 100 + 10 * (y : ℚ) := by
  unfold generate_pressure_map
  have hx1 : x < ((List.range w).map (fun _ =>
      (List.range h).map (fun (y : ℕ) => 100 + 10 * (y : ℚ)))).length := by
    simpa using hx
  rw [List.getD_eq_getElem _ _ hx1, List.getElem_map]
  have hy1 : y < ((List.range h).map
      (fun (y : ℕ) => 100 + 10 * (y : ℚ))).length := by
    simpa using hy
  rw [List.getD_eq_getElem _ _ hy1, List.getElem_map, List.getElem_range]

/-- C7: in a freshly constructed ecosystem every temperature cell lies
in [5, 15] (given unit-interval continuous draws), every pressure cell
equals 100 + 10 * y independently of x, and a simulation cycle never
regenerates either field (they are produced exactly once, at
construction). -/
theorem C7_environment_fields (features : List GeologicalFeature)
    (orgs : List Organism) (w h : ℤ) (g : RandSource) (x y : ℕ)
    (hu : ∀ n, 0 ≤ g.real n ∧ g.real n ≤ 1)
    (hx : x < w.toNat) (hy : y < h.toNat) :
    (5 ≤ (((makeEcosystem features orgs w h g).temperature_map.getD x
        []).getD y 0) ∧
      (((makeEcosystem features orgs w h g).temperature_map.getD x
        []).getD y 0) ≤ 15) ∧
    (((makeEcosystem features orgs w h g).pressure_map.getD x []).getD y 0) =
      100 + 10 * (y : ℚ) ∧
    (∀ g2 k st2 k2 evs,
      P3.simulate_cycle (makeEcosystem features orgs w h g) g2 k =
        Except.ok (st2, k2, evs) →
      st2.temperature_map = (makeEcosystem features orgs w h g).temperature_map ∧
      st2.pressure_map = (makeEcosystem features orgs w h g).pressure_map) := by
  have hT : ((makeEcosystem features orgs w h g).temperature_map.getD x
      []).getD y 0 = randUniform 5 15 (g.real (x * h.toNat + y)) :=
    generate_temperature_map_cell w.toNat h.toNat g x y hx hy
  have hP : ((makeEcosystem features orgs w h g).pressure_map.getD x
      []).getD y 0 = 100 + 10 * (y : ℚ) :=
    generate_pressure_map_cell w.toNat h.toNat x y hx hy
  refine ⟨?_, hP, ?_⟩
  · rw [hT]
    obtain ⟨h0, h1⟩ := hu (x * h.toNat + y)
    unfold randUniform
    constructor <;> nlinarith
  · intro g2 k st2 k2 evs hrun
    exact simulate_cycle_fields _ g2 k st2 k2 evs hrun

/-- Witness for C7 on a 2 by 3 grid with the constant one-half draw. -/
theorem C7_environment_fields_witness :
    (5 ≤ (((makeEcosystem [] [] 2 3
        (RandSource.mk (fun _ => 0) (fun _ => 1/2))).temperature_map.getD 1
        []).getD 2 0) ∧
      (((makeEcosystem [] [] 2 3
        (RandSource.mk (fun _ => 0) (fun _ => 1/2))).temperature_map.getD 1
        []).getD 2 0) ≤ 15) ∧
    (((makeEcosystem [] [] 2 3
        (RandSource.mk (fun _ => 0) (fun _ => 1/2))).pressure_map.getD 1
        []).getD 2 0) = 100 + 10 * ((2 : ℕ) : ℚ) ∧
    (∀ g2 k st2 k2 evs,
      P3.simulate_cycle (makeEcosystem [] [] 2 3
          (RandSource.mk (fun _ => 0) (fun _ => 1/2))) g2 k =
        Except.ok (st2, k2, evs) →
      st2.temperature_map = (makeEcosystem [] [] 2 3
        (RandSource.mk (fun _ => 0) (fun _ => 1/2))).temperature_map ∧
      st2.pressure_map = (makeEcosystem [] [] 2 3
        (RandSource.mk (fun _ => 0) (fun _ => 1/2))).pressure_map) :=
  C7_environment_fields [] [] 2 3 _ 1 2
    (fun n => by norm_num) (by decide) (by decide)

/-- C8: two runs of N cycles from identical initial configurations and
an identical random source produce identical results: same final
organisms and the same event sequence, in the same order. -/
theorem C8_run_deterministic (features1 features2 : List GeologicalFeature)
    (orgs1 orgs2 : List Organism) (w1 h1 w2 h2 : ℤ) (g1 g2 : RandSource)
    (N : ℕ) (hf : features1 = features2) (ho : orgs1 = orgs2)
    (hw : w1 = w2) (hh : h1 = h2) (hg : g1 = g2) :
    P3.run g1 N (makeEcosystem features1 orgs1 w1 h1 g1) 0 =
    P3.run g2 N (makeEcosystem features2 orgs2 w2 h2 g2) 0 := by
  subst hf; subst ho; subst hw; subst hh; subst hg; rfl

/-- Witness for C8 at a concrete configuration and two cycles. -/
theorem C8_run_deterministic_witness :
    P3.run (RandSource.mk (fun _ => 0) (fun _ => 0)) 2
      (makeEcosystem [] [] 4 4 (RandSource.mk (fun _ => 0) (fun _ => 0))) 0 =
    P3.run (RandSource.mk (fun _ => 0) (fun _ => 0)) 2
      (makeEcosystem [] [] 4 4 (RandSource.mk (fun _ => 0) (fun _ => 0))) 0 :=
  C8_run_deterministic [] [] [] [] 4 4 4 4 _ _ 2 rfl rfl rfl rfl rfl

/-- C9: the snapshot accessor get_plot_data mutates nothing: the
ecosystem after the call has exactly the features, organisms,
environment fields and dimensions it had before, in both prototypes,
and the returned lists are the pre-call positions and sizes. -/
theorem C9_get_plot_data_no_mutation (st : Ecosystem) :
    ((P3.get_plot_data st).2.features = st.features ∧
      (P3.get_plot_data st).2.organisms = st.organisms ∧
      (P3.get_plot_data st).2.temperature_map = st.temperature_map ∧
      (P3.get_plot_data st).2.pressure_map = st.pressure_map ∧
      (P3.get_plot_data st).2.width = st.width ∧
      (P3.get_plot_data st).2.height = st.height) ∧
    (P2.get_plot_data st).2 = st ∧
    ((P2.get_plot_data st).1.x_features = st.features.map (fun f => f.x) ∧
      (P2.get_plot_data st).1.y_features = st.features.map (fun f => f.y) ∧
      (P2.get_plot_data st).1.x_organisms = st.organisms.map (fun o => o.x) ∧
      (P2.get_plot_data st).1.y_organisms = st.organisms.map (fun o => o.y) ∧
      (P2.get_plot_data st).1.sizes = st.organisms.map (fun o => o.size * 100)) :=
  ⟨⟨rfl, rfl, rfl, rfl, rfl, rfl⟩, rfl, rfl, rfl, rfl, rfl, rfl⟩

theorem processOrganism_eq : P2.processOrganism = P3.processOrganism := rfl

theorem cycleAux_eq (st : Ecosystem) (g : RandSource) :
    ∀ (fuel : ℕ) (orgs : List Organism) (k i : ℕ),
      P2.cycleAux st g fuel orgs k i = P3.cycleAux st g fuel orgs k i := by
  intro fuel
  induction fuel with
  | zero => intro orgs k i; rfl
  | succ fuel ih =>
    intro orgs k i
    simp only [P2.cycleAux, P3.cycleAux, processOrganism_eq]
    cases P3.processOrganism st orgs g k i with
    | error e => rfl
    | ok r =>
      obtain ⟨orgs2, k2, evs⟩ := r
      simp only [ih]

/-- C10: the per-cycle transitions of prototype2 and prototype3 are the
same function: from any ecosystem state and any random draws, the two
simulate_cycle translations return identical results, hence identical
post-cycle organism positions and energies. -/
theorem C10_prototype2_prototype3_cycle_equiv (st : Ecosystem)
    (g : RandSource) (k : ℕ) :
    P2.simulate_cycle st g k = P3.simulate_cycle st g k := by
  unfold P2.simulate_cycle P3.simulate_cycle
  rw [cycleAux_eq]
